import Mathlib

/-!
Shallow embedding of the clouddns reconciliation core.

The effectful Rust code is embedded as pure functions: every HTTP
interaction is represented by the response value the code would observe,
passed in as an argument (`HttpOutcome`), and every function returns,
besides its `Except` result, the list of provider calls it issued
(`ProviderCall`), so that claims about which requests are sent become
statements about that list.

Namespace `Ddns` embeds `src/ddns.rs` (the engine wired into the
repository: `CloudflareDdns`); namespace `Api` embeds `src/api/models.rs`
and `src/api/cloudflare.rs` (the `DnsApiClient` trait implementation).
-/

/-- An IPv4 address as four octets, embedding `std::net::Ipv4Addr`. -/
structure Ipv4 where
  a : Nat
  b : Nat
  c : Nat
  d : Nat
deriving DecidableEq, Repr

/-- `Ipv4Addr::to_string()`: canonical dotted-decimal rendering, each octet
in decimal with no padding and no leading zeros. -/
def ipToString (ip : Ipv4) : String :=
  toString ip.a ++ "." ++ toString ip.b ++ "." ++ toString ip.c ++ "." ++ toString ip.d

/-- Split a character list on dots (helper for `parseIpv4`). -/
def splitDots : List Char → List (List Char)
  | [] => [[]]
  | c :: cs =>
    if c = '.' then [] :: splitDots cs
    else
      match splitDots cs with
      | g :: gs => (c :: g) :: gs
      | [] => [[c]]

/-- The decimal value of a nonempty all-digit character list. -/
def octetVal : List Char → Option Nat
  | [] => none
  | cs =>
    if cs.all Char.isDigit then
      some (cs.foldl (fun acc c => acc * 10 + (c.toNat - 48)) 0)
    else none

/-- One dotted-decimal octet as accepted by `Ipv4Addr::from_str`: decimal
digits only, nonempty, value at most 255, no leading zero. -/
def parseOctet (cs : List Char) : Option Nat :=
  if cs.length > 1 && cs.headD ' ' == '0' then none
  else match octetVal cs with
  | none => none
  | some v => if v ≤ 255 then some v else none

/-- `Ipv4Addr::from_str`: exactly four dot-separated octets. -/
def parseIpv4 (s : String) : Option Ipv4 :=
  match (splitDots s.toList).map parseOctet with
  | [some a, some b, some c, some d] => some ⟨a, b, c, d⟩
  | _ => none

/-- The outcome of one HTTP exchange as the Rust code observes it:
a transport-level failure (`reqwest` error), a body that fails to
deserialize, or a successfully parsed value of the expected shape. -/
inductive HttpOutcome (T : Type) where
  | transportError (msg : String)
  | badBody (body : String)
  | parsed (value : T)
deriving DecidableEq, Repr

/-- The error taxonomy of the spec, as produced by the `anyhow` errors in
the source: network, parse, provider-reported (`success: false`), and
record-not-found failures. -/
inductive DdnsError where
  | networkError (msg : String)
  | parseError (msg : String)
  | apiError (errors : List String)
  | notFound (domain : String)
deriving DecidableEq, Repr

/-- The JSON body sent by a `PATCH .../dns_records/{id}` request
(`{type, name, content, ttl, proxied}`). -/
structure UpdateRequest where
  rtype : String
  name : String
  content : String
  ttl : Nat
  proxied : Bool
deriving DecidableEq, Repr

/-- A provider call issued by the engine: a record listing (read) or a
record patch (write), with the request body for the latter. -/
inductive ProviderCall where
  | getRecords (zone_id : String)
  | patchRecord (zone_id : String) (record_id : String) (body : UpdateRequest)
deriving DecidableEq, Repr

/-- `true` exactly on provider writes (PATCH calls). -/
def ProviderCall.isWrite : ProviderCall → Bool
  | .patchRecord _ _ _ => true
  | _ => false

namespace Ddns

/-- `Domain` from `src/ddns.rs`. -/
structure Domain where
  name : String
  record : String
deriving DecidableEq, Repr

/-- `Config` from `src/ddns.rs`. -/
structure Config where
  api_token : String
  zone_id : String
  update_interval : Nat
  domain_list : List Domain
  record_ttl : Nat

/-- `TraceResponse` from `src/ddns.rs`: the ipify reply body. -/
structure TraceResponse where
  ip : String
deriving DecidableEq, Repr

/-- `ApiDnsRecord` from `src/ddns.rs`. Note the struct deserializes no
`type` field: a record's wire type is dropped on parse. -/
structure ApiDnsRecord where
  id : String
  name : String
  content : String
  proxied : Bool
  ttl : Nat
deriving DecidableEq, Repr

/-- `ApiResponse<T>` from `src/ddns.rs`: the Cloudflare response envelope.
The `serde_json::Value` error/message payloads are modelled as strings. -/
structure ApiResponse (T : Type) where
  result : T
  success : Bool
  errors : List String
  messages : List String
deriving DecidableEq, Repr

/-- A DNS record as it exists provider-side (spec data model: identifier,
name, content, TTL, proxy flag, record type). Deserializing it into
`ApiDnsRecord` (which declares no `type` field; serde ignores unknown
fields) discards the type. -/
structure WireDnsRecord where
  id : String
  name : String
  content : String
  rtype : String
  proxied : Bool
  ttl : Nat
deriving DecidableEq, Repr

/-- Deserialization of a wire record into `ddns.rs`'s `ApiDnsRecord`:
the `type` field has no target and is dropped. -/
def parseDdnsRecord (w : WireDnsRecord) : ApiDnsRecord :=
  { id := w.id, name := w.name, content := w.content,
    proxied := w.proxied, ttl := w.ttl }

/-- The mutable engine state: `CloudflareDdns.current_ip`. -/
structure DdnsState where
  current_ip : Option Ipv4
deriving DecidableEq, Repr

/-- `CloudflareDdns::get_current_ip`: GET the echo service, parse the JSON
`{ip}` body, then `Ipv4Addr::from_str` on the `ip` field. -/
def get_current_ip (resp : HttpOutcome TraceResponse) : Except DdnsError Ipv4 :=
  match resp with
  | .transportError e => .error (.networkError e)
  | .badBody b => .error (.parseError b)
  | .parsed tr =>
    match parseIpv4 tr.ip with
    | some ip => .ok ip
    | none => .error (.parseError tr.ip)

/-- `CloudflareDdns::get_record_content`: list the zone's records, fail on
transport or parse error, fail with the provider's error payload when the
envelope has `success: false`, otherwise return the first record whose
name equals the domain's name, or a not-found error. -/
def get_record_content (resp : HttpOutcome (ApiResponse (List ApiDnsRecord)))
    (domain : Domain) : Except DdnsError ApiDnsRecord :=
  match resp with
  | .transportError e => .error (.networkError e)
  | .badBody b => .error (.parseError b)
  | .parsed parsed =>
    if !parsed.success then .error (.apiError parsed.errors)
    else
      match parsed.result.find? (fun r => r.name == domain.name) with
      | some r => .ok r
      | none => .error (.notFound domain.name)

/-- The PATCH body built at `src/ddns.rs:145-151`: the `type` field is the
literal `"A"`, `name` is the configured record name, `content` the
rendered IP, `ttl` the configured TTL, `proxied` the fetched record's
flag. -/
def buildUpdateRequest (cfg : Config) (ip : Ipv4) (domain : Domain)
    (rc : ApiDnsRecord) : UpdateRequest :=
  { rtype := "A", name := domain.record, content := ipToString ip,
    ttl := cfg.record_ttl, proxied := rc.proxied }

/-- `CloudflareDdns::update_record`: fetch the record, return Ok issuing
no write when its content equals the rendered IP, otherwise PATCH and fail
unless the update envelope parses with `success: true`. Returns the result
together with the provider calls issued. -/
def update_record (cfg : Config) (zone_id : String) (ip : Ipv4) (domain : Domain)
    (getResp : HttpOutcome (ApiResponse (List ApiDnsRecord)))
    (patchResp : HttpOutcome (ApiResponse ApiDnsRecord)) :
    Except DdnsError Unit × List ProviderCall :=
  match get_record_content getResp domain with
  | .error e => (.error e, [.getRecords zone_id])
  | .ok rc =>
    if rc.content == ipToString ip then
      (.ok (), [.getRecords zone_id])
    else
      let req := buildUpdateRequest cfg ip domain rc
      let calls := [.getRecords zone_id, .patchRecord zone_id rc.id req]
      match patchResp with
      | .transportError e => (.error (.networkError e), calls)
      | .badBody b => (.error (.parseError b), calls)
      | .parsed ur =>
        if !ur.success then (.error (.apiError ur.errors), calls)
        else (.ok (), calls)

/-- The per-domain loop of `CloudflareDdns::update_all_records`
(lines 181-192): process domains in order; on the first `Err` the loop
does `return Err(e)`, so later domains are not processed. -/
def processDomains (cfg : Config) (zone_id : String) (ip : Ipv4)
    (getResp : Domain → HttpOutcome (ApiResponse (List ApiDnsRecord)))
    (patchResp : Domain → HttpOutcome (ApiResponse ApiDnsRecord)) :
    List Domain → Except DdnsError Unit × List ProviderCall
  | [] => (.ok (), [])
  | d :: rest =>
    match update_record cfg zone_id ip d (getResp d) (patchResp d) with
    | (.error e, calls) => (.error e, calls)
    | (.ok _, calls) =>
      let (res, more) := processDomains cfg zone_id ip getResp patchResp rest
      (res, calls ++ more)

/-- `CloudflareDdns::update_all_records`: resolve the public IP (aborting
with no provider call on failure), store it in `current_ip`, then run the
per-domain loop. Returns result, new state, and issued calls. -/
def update_all_records (cfg : Config) (st : DdnsState)
    (ipResp : HttpOutcome TraceResponse)
    (getResp : Domain → HttpOutcome (ApiResponse (List ApiDnsRecord)))
    (patchResp : Domain → HttpOutcome (ApiResponse ApiDnsRecord)) :
    Except DdnsError Unit × DdnsState × List ProviderCall :=
  match get_current_ip ipResp with
  | .error e => (.error e, st, [])
  | .ok ip =>
    let (res, calls) := processDomains cfg cfg.zone_id ip getResp patchResp cfg.domain_list
    (res, { current_ip := some ip }, calls)

end Ddns

namespace Api

/-- `DnsRecordUpdate` from `src/api/models.rs`: the record shape returned
by `get_record`, carrying the `type` field (`r#type`). -/
structure DnsRecordUpdate where
  id : String
  name : String
  content : String
  ttl : Nat
  proxied : Bool
  rtype : String
deriving DecidableEq, Repr

/-- `ApiDnsRecord` from `src/api/models.rs`. -/
structure ApiDnsRecord where
  id : String
  name : String
  content : String
  rtype : String
  proxied : Bool
  ttl : Nat
deriving DecidableEq, Repr

/-- `ApiResponse<T>` from `src/api/models.rs`. -/
structure ApiResponse (T : Type) where
  result : T
  success : Bool
  errors : List String
deriving DecidableEq, Repr

/-- `CloudflareClient::get_record` (`src/api/cloudflare.rs:17-33`): list
the zone's records and return the first whose name equals the requested
domain, or a not-found error. The envelope's `success` flag is never
inspected by this function. -/
def get_record (resp : HttpOutcome (ApiResponse (List DnsRecordUpdate)))
    (domain : String) : Except DdnsError DnsRecordUpdate :=
  match resp with
  | .transportError e => .error (.networkError e)
  | .badBody b => .error (.parseError b)
  | .parsed response_json =>
    match response_json.result.find? (fun r => r.name == domain) with
    | some r => .ok r
    | none => .error (.notFound domain)

/-- The PATCH body built at `src/api/cloudflare.rs:50-56`: the fetched
record's `type`, `name` and `proxied` are carried over, `content` and
`ttl` replaced. -/
def buildUpdateRequest (record : DnsRecordUpdate) (content : Ipv4)
    (ttl : Nat) : UpdateRequest :=
  { rtype := record.rtype, name := record.name, content := ipToString content,
    ttl := ttl, proxied := record.proxied }

/-- `CloudflareClient::update_record` (`src/api/cloudflare.rs:35-72`):
PATCH the record, fail on transport or parse error or when the envelope
has `success: false`, otherwise return the envelope's record. -/
def update_record (zone_id : String) (record : DnsRecordUpdate)
    (content : Ipv4) (ttl : Nat)
    (patchResp : HttpOutcome (ApiResponse ApiDnsRecord)) :
    Except DdnsError ApiDnsRecord × List ProviderCall :=
  let req := buildUpdateRequest record content ttl
  let calls := [ProviderCall.patchRecord zone_id record.id req]
  match patchResp with
  | .transportError e => (.error (.networkError e), calls)
  | .badBody b => (.error (.parseError b), calls)
  | .parsed ur =>
    if !ur.success then (.error (.apiError ur.errors), calls)
    else (.ok ur.result, calls)

end Api

/-! ## Scheduler

`CloudflareDdns::run` (`src/ddns.rs:196-205`) converts the configured
interval from minutes to a duration (`Duration::from_secs(interval * 60)`)
and loops: run `update_all_records` (an `Err` is logged, not propagated),
then sleep for the interval. The trace of one run is modelled as a list of
events, with each cycle's outcome supplied by a function `o` since `run`
only logs it. -/

/-- One observable event of the scheduler loop: a reconciliation cycle
with its outcome, or a sleep of the given number of seconds. -/
inductive SchedEvent where
  | cycle (result : Except DdnsError Unit)
  | wait (seconds : Nat)
deriving Repr

/-- One iteration of the `loop` in `run`: the cycle, then the sleep of
`update_interval * 60` seconds. -/
def runIteration (cfg : Ddns.Config) (o : Nat → Except DdnsError Unit)
    (k : Nat) : List SchedEvent :=
  [SchedEvent.cycle (o k), SchedEvent.wait (cfg.update_interval * 60)]

/-- The first `n` iterations of `run`: iteration 0 starts immediately. -/
def runTrace (cfg : Ddns.Config) (o : Nat → Except DdnsError Unit) :
    Nat → List SchedEvent
  | 0 => []
  | n + 1 => runTrace cfg o n ++ runIteration cfg o n

/-- Modelled from the spec: the cancellation-aware scheduler. `main.rs`
calls `ddns.run(CloudflareDdns::shutdown_signal())`, but no
`run(cancellation_signal)` or `shutdown_signal` exists under `src/`
(the `run` in `ddns.rs` takes no signal and never stops), so the state
machine of spec section 4.4 is modelled here: `Idle → Running →
(Waiting ⇄ Running) → Stopped`; cancellation is observed only while
waiting. `cancel k` says whether the signal has arrived by the wait that
follows cycle `k`. -/
inductive SchedulerState where
  | idle
  | running (k : Nat)
  | waiting (k : Nat)
  | stopped
deriving DecidableEq, Repr

/-- Modelled from the spec: one transition of the cancellation-aware
scheduler. A cycle in flight runs to completion (`running k → waiting k`);
a cancellation delivered during the wait goes directly to `stopped`,
otherwise the next cycle starts. -/
def schedStep (cancel : Nat → Bool) : SchedulerState → SchedulerState
  | .idle => .running 0
  | .running k => .waiting k
  | .waiting k => if cancel k then .stopped else .running (k + 1)
  | .stopped => .stopped

/-- Iterated scheduler transitions. -/
def schedStepN (cancel : Nat → Bool) (s : SchedulerState) :
    Nat → SchedulerState
  | 0 => s
  | n + 1 => schedStepN cancel (schedStep cancel s) n

/-- The provider calls a scheduler state gives rise to: a running cycle
issues that cycle's calls; idle, waiting and stopped states issue none. -/
def schedCalls (cycleCalls : Nat → List ProviderCall) :
    SchedulerState → List ProviderCall
  | .running k => cycleCalls k
  | _ => []

/-! ## Concrete fixtures used by witnesses and counterexamples -/

/-- A configured domain. -/
def domA : Ddns.Domain := { name := "a.example.com", record := "a" }

/-- A second configured domain. -/
def domB : Ddns.Domain := { name := "b.example.com", record := "b" }

/-- A configuration with a single domain. -/
def cfgA : Ddns.Config :=
  { api_token := "tok", zone_id := "z1", update_interval := 5,
    domain_list := [domA], record_ttl := 60 }

/-- A configuration with two domains. -/
def cfgAB : Ddns.Config :=
  { api_token := "tok", zone_id := "z1", update_interval := 5,
    domain_list := [domA, domB], record_ttl := 60 }

/-- A fetched record for `domA` whose content is `1.2.3.4`. -/
def recA : Ddns.ApiDnsRecord :=
  { id := "rida", name := "a.example.com", content := "1.2.3.4",
    proxied := true, ttl := 300 }

/-- A fetched record for `domA` with non-canonical content that denotes
the address 1.2.3.4 with leading zeros. -/
def recZeros : Ddns.ApiDnsRecord :=
  { id := "rida", name := "a.example.com", content := "001.002.003.004",
    proxied := true, ttl := 300 }

/-- A successful record-listing envelope. -/
def okListEnv (rs : List Ddns.ApiDnsRecord) :
    Ddns.ApiResponse (List Ddns.ApiDnsRecord) :=
  { result := rs, success := true, errors := [], messages := [] }

/-- A successful update envelope. -/
def okPatchEnv : Ddns.ApiResponse Ddns.ApiDnsRecord :=
  { result := recA, success := true, errors := [], messages := [] }

/-- An update envelope whose body reports failure (`success: false`)
although the HTTP exchange itself succeeded. -/
def failPatchEnv : Ddns.ApiResponse Ddns.ApiDnsRecord :=
  { result := recA, success := false, errors := ["provider rejected"],
    messages := [] }

/-! ## Helper lemmas -/

/-- The calls one domain gives rise to inside the per-domain loop. -/
def Ddns.domainCalls (cfg : Ddns.Config) (zone_id : String) (ip : Ipv4)
    (getResp : Ddns.Domain → HttpOutcome (Ddns.ApiResponse (List Ddns.ApiDnsRecord)))
    (patchResp : Ddns.Domain → HttpOutcome (Ddns.ApiResponse Ddns.ApiDnsRecord))
    (d : Ddns.Domain) : List ProviderCall :=
  (Ddns.update_record cfg zone_id ip d (getResp d) (patchResp d)).2

/-- If every domain of a prefix succeeds and the next domain fails, the
per-domain loop stops there: the error is returned and the calls are those
of the prefix plus the failing domain, nothing from the rest. -/
theorem Ddns.processDomains_stops_at_failure (cfg : Ddns.Config)
    (zone_id : String) (ip : Ipv4)
    (getResp : Ddns.Domain → HttpOutcome (Ddns.ApiResponse (List Ddns.ApiDnsRecord)))
    (patchResp : Ddns.Domain → HttpOutcome (Ddns.ApiResponse Ddns.ApiDnsRecord))
    (d : Ddns.Domain) (rest : List Ddns.Domain) (e : DdnsError)
    (hfail : (Ddns.update_record cfg zone_id ip d (getResp d) (patchResp d)).1 = .error e) :
    ∀ pre : List Ddns.Domain,
      (∀ d_pre ∈ pre,
        (Ddns.update_record cfg zone_id ip d_pre (getResp d_pre) (patchResp d_pre)).1 = .ok ()) →
      Ddns.processDomains cfg zone_id ip getResp patchResp (pre ++ d :: rest)
        = (.error e,
           pre.flatMap (Ddns.domainCalls cfg zone_id ip getResp patchResp)
             ++ Ddns.domainCalls cfg zone_id ip getResp patchResp d) := by
  intro pre
  induction pre with
  | nil =>
    intro _
    rcases hu : Ddns.update_record cfg zone_id ip d (getResp d) (patchResp d) with ⟨r, calls⟩
    rw [hu] at hfail
    simp only at hfail
    subst hfail
    simp [Ddns.processDomains, hu, Ddns.domainCalls]
  | cons p ps ih =>
    intro hok
    have hp : (Ddns.update_record cfg zone_id ip p (getResp p) (patchResp p)).1 = .ok () := by
      exact hok p (List.mem_cons_self p ps)
    have hps : ∀ d_pre ∈ ps,
        (Ddns.update_record cfg zone_id ip d_pre (getResp d_pre) (patchResp d_pre)).1 = .ok () := by
      intro d_pre hd
      exact hok d_pre (List.mem_cons_of_mem p hd)
    have hrec := ih hps
    rcases hu : Ddns.update_record cfg zone_id ip p (getResp p) (patchResp p) with ⟨r, calls⟩
    rw [hu] at hp
    simp only at hp
    subst hp
    simp only [List.cons_append, Ddns.processDomains, hu, List.append_eq, hrec,
      List.flatMap_cons, Ddns.domainCalls, List.append_assoc]

/-- When IP resolution succeeds, `update_all_records` stores the resolved
IP and returns the per-domain loop's result and calls. -/
theorem Ddns.update_all_records_resolved (cfg : Ddns.Config) (st : Ddns.DdnsState)
    (ipResp : HttpOutcome Ddns.TraceResponse) (ip : Ipv4)
    (getResp : Ddns.Domain → HttpOutcome (Ddns.ApiResponse (List Ddns.ApiDnsRecord)))
    (patchResp : Ddns.Domain → HttpOutcome (Ddns.ApiResponse Ddns.ApiDnsRecord))
    (hip : Ddns.get_current_ip ipResp = .ok ip) :
    Ddns.update_all_records cfg st ipResp getResp patchResp
      = ((Ddns.processDomains cfg cfg.zone_id ip getResp patchResp cfg.domain_list).1,
         ⟨some ip⟩,
         (Ddns.processDomains cfg cfg.zone_id ip getResp patchResp cfg.domain_list).2) := by
  unfold Ddns.update_all_records
  rw [hip]

/-! ## C1 -/

/-- C1 counterexample: with two configured domains and the first domain's
record listing failing at transport level, `update_all_records` returns
the error — it escapes the engine boundary — and issues exactly one
provider call in the whole cycle, so the second configured domain is
never processed. This refutes the claim that a per-domain failure is
contained and processing continues with the remaining domains. -/
theorem update_all_records_continue_on_error_counterexample :
    Ddns.update_all_records cfgAB ⟨none⟩ (.parsed ⟨"1.2.3.4"⟩)
        (fun _ => .transportError "connection refused")
        (fun _ => .parsed okPatchEnv)
      = (.error (.networkError "connection refused"), ⟨some ⟨1, 2, 3, 4⟩⟩,
         [.getRecords "z1"])
      ∧ cfgAB.domain_list.length = 2 := by
  exact ⟨rfl, rfl⟩

/-- C1 (amended): a failure while processing one domain aborts the cycle:
`update_all_records` returns the error of the first failing domain, and
the provider calls of the cycle are exactly those of the preceding
(successful) domains plus those of the failing one — the remaining
domains of the list are not processed. The error is only caught and
logged one level up, in `run`, not at the engine boundary. -/
theorem update_all_records_abort_on_domain_failure (cfg : Ddns.Config)
    (st : Ddns.DdnsState) (ipResp : HttpOutcome Ddns.TraceResponse) (ip : Ipv4)
    (getResp : Ddns.Domain → HttpOutcome (Ddns.ApiResponse (List Ddns.ApiDnsRecord)))
    (patchResp : Ddns.Domain → HttpOutcome (Ddns.ApiResponse Ddns.ApiDnsRecord))
    (pre : List Ddns.Domain) (d : Ddns.Domain) (rest : List Ddns.Domain) (e : DdnsError)
    (hip : Ddns.get_current_ip ipResp = .ok ip)
    (hlist : cfg.domain_list = pre ++ d :: rest)
    (hok : ∀ d_pre ∈ pre,
      (Ddns.update_record cfg cfg.zone_id ip d_pre (getResp d_pre) (patchResp d_pre)).1 = .ok ())
    (hfail : (Ddns.update_record cfg cfg.zone_id ip d (getResp d) (patchResp d)).1 = .error e) :
    (Ddns.update_all_records cfg st ipResp getResp patchResp).1 = .error e
      ∧ (Ddns.update_all_records cfg st ipResp getResp patchResp).2.2
          = pre.flatMap (Ddns.domainCalls cfg cfg.zone_id ip getResp patchResp)
              ++ Ddns.domainCalls cfg cfg.zone_id ip getResp patchResp d := by
  rw [Ddns.update_all_records_resolved cfg st ipResp ip getResp patchResp hip, hlist,
    Ddns.processDomains_stops_at_failure cfg cfg.zone_id ip getResp patchResp d rest e hfail pre hok]
  exact ⟨rfl, rfl⟩

/-- C1 amended-claim witness: the two-domain configuration with the first
domain failing, instantiating the abort theorem at a concrete input. -/
theorem update_all_records_abort_on_domain_failure_witness :
    (Ddns.update_all_records cfgAB ⟨none⟩ (.parsed ⟨"1.2.3.4"⟩)
        (fun _ => .transportError "connection refused")
        (fun _ => .parsed okPatchEnv)).1 = .error (.networkError "connection refused")
      ∧ (Ddns.update_all_records cfgAB ⟨none⟩ (.parsed ⟨"1.2.3.4"⟩)
          (fun _ => .transportError "connection refused")
          (fun _ => .parsed okPatchEnv)).2.2
        = ([] : List Ddns.Domain).flatMap
            (Ddns.domainCalls cfgAB "z1" ⟨1, 2, 3, 4⟩
              (fun _ => .transportError "connection refused")
              (fun _ => .parsed okPatchEnv))
            ++ Ddns.domainCalls cfgAB "z1" ⟨1, 2, 3, 4⟩
                (fun _ => .transportError "connection refused")
                (fun _ => .parsed okPatchEnv) domA :=
  update_all_records_abort_on_domain_failure cfgAB ⟨none⟩ (.parsed ⟨"1.2.3.4"⟩)
    ⟨1, 2, 3, 4⟩ (fun _ => .transportError "connection refused")
    (fun _ => .parsed okPatchEnv) [] domA [domB]
    (.networkError "connection refused") rfl rfl (by intro d_pre hd; cases hd) rfl

/-! ## C2 -/

/-- Once stopped, the scheduler stays stopped. -/
theorem schedStepN_stopped (cancel : Nat → Bool) :
    ∀ m, schedStepN cancel .stopped m = .stopped
  | 0 => rfl
  | m + 1 => schedStepN_stopped cancel m

/-- C2: a cancellation signal delivered during the inter-cycle wait moves
the scheduler directly to `Stopped` without starting a new cycle, and from
that point on no state of the run issues any provider call. (Modelled
from the spec, section 4.4: the cancellation-aware `run` entry point that
`main.rs` invokes is not present under `src/`.) -/
theorem sched_cancel_during_wait_stops (cancel : Nat → Bool) (k : Nat)
    (h : cancel k = true) :
    schedStep cancel (.waiting k) = .stopped
      ∧ ∀ m cycleCalls,
          schedCalls cycleCalls (schedStepN cancel (.waiting k) m) = [] := by
  have hstep : schedStep cancel (.waiting k) = .stopped := by
    simp [schedStep, h]
  refine ⟨hstep, ?_⟩
  intro m cycleCalls
  cases m with
  | zero => rfl
  | succ m =>
    have hst : schedStepN cancel (.waiting k) (m + 1) = .stopped := by
      show schedStepN cancel (schedStep cancel (.waiting k)) m = .stopped
      rw [hstep]
      exact schedStepN_stopped cancel m
    rw [hst]
    rfl

/-- C2 witness: a signal already delivered at the first wait; three steps
later the scheduler is stopped and issues no provider calls. -/
theorem sched_cancel_during_wait_stops_witness :
    schedStep (fun _ => true) (.waiting 0) = .stopped
      ∧ schedCalls (fun _ => [ProviderCall.getRecords "z1"])
          (schedStepN (fun _ => true) (.waiting 0) 3) = [] :=
  ⟨(sched_cancel_during_wait_stops (fun _ => true) 0 rfl).1,
   (sched_cancel_during_wait_stops (fun _ => true) 0 rfl).2 3
     (fun _ => [ProviderCall.getRecords "z1"])⟩

/-! ## C3 -/

/-- C3 counterexample: a provider-side record of type `CNAME` (the listing
matches on name only, and deserialization into `ApiDnsRecord` drops the
`type` field) whose content differs from the resolved IP. The single PATCH
issued carries `type` as the literal `"A"`, not the fetched record's
existing type, refuting the claim that the record's type is carried
unchanged. -/
theorem update_request_type_not_preserved_counterexample :
    (Ddns.update_record cfgAB "z1" ⟨5, 6, 7, 8⟩ domA
        (.parsed (okListEnv [Ddns.parseDdnsRecord
          { id := "rid1", name := "a.example.com", content := "1.2.3.4",
            rtype := "CNAME", proxied := true, ttl := 300 }]))
        (.parsed okPatchEnv)).2
      = [.getRecords "z1",
         .patchRecord "z1" "rid1"
           { rtype := "A", name := "a", content := "5.6.7.8", ttl := 60,
             proxied := true }]
      ∧ ("CNAME" : String) ≠ "A" := by
  exact ⟨rfl, by decide⟩

/-- C3 (amended): for a domain whose fetched record content differs from
the resolved IP, exactly one update call is issued; its body carries the
resolved IP as content, the configured TTL as ttl, and the fetched
record's proxy flag unchanged, while the `type` field is the fixed
literal `"A"` regardless of the fetched record's type (which the engine's
record struct does not even retain). -/
theorem update_request_fields (cfg : Ddns.Config) (zone_id : String)
    (ip : Ipv4) (d : Ddns.Domain)
    (getResp : HttpOutcome (Ddns.ApiResponse (List Ddns.ApiDnsRecord)))
    (patchResp : HttpOutcome (Ddns.ApiResponse Ddns.ApiDnsRecord))
    (rc : Ddns.ApiDnsRecord)
    (h1 : Ddns.get_record_content getResp d = .ok rc)
    (h2 : rc.content ≠ ipToString ip) :
    (Ddns.update_record cfg zone_id ip d getResp patchResp).2
      = [.getRecords zone_id,
         .patchRecord zone_id rc.id
           { rtype := "A", name := d.record, content := ipToString ip,
             ttl := cfg.record_ttl, proxied := rc.proxied }] := by
  have hb : (rc.content == ipToString ip) = false := by
    simp [h2]
  simp only [Ddns.update_record, h1, hb, Bool.false_eq_true, if_false]
  cases patchResp with
  | transportError e => simp [Ddns.buildUpdateRequest]
  | badBody b => simp [Ddns.buildUpdateRequest]
  | parsed ur =>
    by_cases hs : ur.success <;> simp [hs, Ddns.buildUpdateRequest]

/-- C3 amended-claim witness: a record holding `1.2.3.4` while the
resolved IP is `5.6.7.8`. -/
theorem update_request_fields_witness :
    (Ddns.update_record cfgA "z1" ⟨5, 6, 7, 8⟩ domA
        (.parsed (okListEnv [recA])) (.parsed okPatchEnv)).2
      = [.getRecords "z1",
         .patchRecord "z1" recA.id
           { rtype := "A", name := domA.record, content := ipToString ⟨5, 6, 7, 8⟩,
             ttl := cfgA.record_ttl, proxied := recA.proxied }] :=
  update_request_fields cfgA "z1" ⟨5, 6, 7, 8⟩ domA
    (.parsed (okListEnv [recA])) (.parsed okPatchEnv) recA rfl (by decide)

/-! ## C4 -/

/-- When every domain's fetched record content already equals the rendered
IP, the per-domain loop succeeds and issues exactly one read per domain,
in configuration order, and no write. -/
theorem Ddns.processDomains_all_match (cfg : Ddns.Config) (zone_id : String)
    (ip : Ipv4)
    (getResp : Ddns.Domain → HttpOutcome (Ddns.ApiResponse (List Ddns.ApiDnsRecord)))
    (patchResp : Ddns.Domain → HttpOutcome (Ddns.ApiResponse Ddns.ApiDnsRecord)) :
    ∀ l : List Ddns.Domain,
      (∀ d ∈ l, ∃ rc, Ddns.get_record_content (getResp d) d = .ok rc
        ∧ rc.content = ipToString ip) →
      Ddns.processDomains cfg zone_id ip getResp patchResp l
        = (.ok (), l.map (fun _ => ProviderCall.getRecords zone_id)) := by
  intro l
  induction l with
  | nil => intro _; rfl
  | cons d rest ih =>
    intro h
    obtain ⟨rc, hg, hc⟩ := h d (List.mem_cons_self d rest)
    have hrest := ih (fun d_r hd => h d_r (List.mem_cons_of_mem d hd))
    have hb : (rc.content == ipToString ip) = true := by
      simp [hc]
    simp only [Ddns.processDomains, Ddns.update_record, hg, hb, if_true, hrest,
      List.map_cons, List.cons_append, List.nil_append]

/-- C4: if the resolved IP is obtained and, for every configured domain,
the fetched record content equals the resolved IP in string form, then
the cycle succeeds and issues no provider write at all: each domain is
skipped unchanged, and re-running reconciliation in this matching state
performs zero update calls (idempotence). -/
theorem cycle_no_writes_when_all_match (cfg : Ddns.Config)
    (st : Ddns.DdnsState) (ipResp : HttpOutcome Ddns.TraceResponse) (ip : Ipv4)
    (getResp : Ddns.Domain → HttpOutcome (Ddns.ApiResponse (List Ddns.ApiDnsRecord)))
    (patchResp : Ddns.Domain → HttpOutcome (Ddns.ApiResponse Ddns.ApiDnsRecord))
    (hip : Ddns.get_current_ip ipResp = .ok ip)
    (hmatch : ∀ d ∈ cfg.domain_list, ∃ rc,
      Ddns.get_record_content (getResp d) d = .ok rc ∧ rc.content = ipToString ip) :
    (Ddns.update_all_records cfg st ipResp getResp patchResp).1 = .ok ()
      ∧ ((Ddns.update_all_records cfg st ipResp getResp patchResp).2.2.filter
          ProviderCall.isWrite) = [] := by
  rw [Ddns.update_all_records_resolved cfg st ipResp ip getResp patchResp hip,
    Ddns.processDomains_all_match cfg cfg.zone_id ip getResp patchResp
      cfg.domain_list hmatch]
  refine ⟨rfl, ?_⟩
  simp [List.filter_map, ProviderCall.isWrite, Function.comp]

/-- C4 witness: one domain whose record already holds the resolved IP
`1.2.3.4`; the cycle is a no-op on the provider. -/
theorem cycle_no_writes_when_all_match_witness :
    (Ddns.update_all_records cfgA ⟨none⟩ (.parsed ⟨"1.2.3.4"⟩)
        (fun _ => .parsed (okListEnv [recA])) (fun _ => .parsed okPatchEnv)).1 = .ok ()
      ∧ ((Ddns.update_all_records cfgA ⟨none⟩ (.parsed ⟨"1.2.3.4"⟩)
          (fun _ => .parsed (okListEnv [recA])) (fun _ => .parsed okPatchEnv)).2.2.filter
            ProviderCall.isWrite) = [] :=
  cycle_no_writes_when_all_match cfgA ⟨none⟩ (.parsed ⟨"1.2.3.4"⟩) ⟨1, 2, 3, 4⟩
    (fun _ => .parsed (okListEnv [recA])) (fun _ => .parsed okPatchEnv) rfl
    (by
      intro d hd
      simp only [cfgA, List.mem_singleton] at hd
      subst hd
      exact ⟨recA, rfl, rfl⟩)

/-! ## C5 -/

/-- A record returned by the listing endpoint, in the `api` module's
record shape. -/
def recU : Api.DnsRecordUpdate :=
  { id := "rid1", name := "a.example.com", content := "1.2.3.4",
    ttl := 300, proxied := true, rtype := "A" }

/-- A listing envelope whose body reports failure (`success: false`)
although the HTTP exchange succeeded. -/
def failListEnvU (rs : List Api.DnsRecordUpdate) :
    Api.ApiResponse (List Api.DnsRecordUpdate) :=
  { result := rs, success := false, errors := ["authentication error"] }

/-- C5: evaluation at the failing input. `CloudflareClient::get_record`
never inspects the envelope's `success` flag: on a body that reports
failure (`success: false`) it still returns a matching record as Ok, and
with an empty result list it fails with the not-found error instead of
the claimed provider-failure (ApiError) one. -/
theorem get_record_ignores_success_flag :
    Api.get_record (.parsed (failListEnvU [recU])) "a.example.com" = .ok recU
      ∧ Api.get_record (.parsed (failListEnvU [])) "a.example.com"
        = .error (.notFound "a.example.com") := by
  exact ⟨rfl, rfl⟩

/-! ## C6 -/

/-- C6: if resolving the current public IP fails, the whole cycle aborts
with that error, the stored state is left unchanged, and zero provider
calls are issued: no record fetch and no update for any configured
domain. -/
theorem resolve_failure_zero_provider_calls (cfg : Ddns.Config)
    (st : Ddns.DdnsState) (ipResp : HttpOutcome Ddns.TraceResponse)
    (getResp : Ddns.Domain → HttpOutcome (Ddns.ApiResponse (List Ddns.ApiDnsRecord)))
    (patchResp : Ddns.Domain → HttpOutcome (Ddns.ApiResponse Ddns.ApiDnsRecord))
    (e : DdnsError) (h : Ddns.get_current_ip ipResp = .error e) :
    Ddns.update_all_records cfg st ipResp getResp patchResp = (.error e, st, []) := by
  unfold Ddns.update_all_records
  rw [h]

/-- C6 witness: the echo service is unreachable; the two-domain cycle
makes no provider call. -/
theorem resolve_failure_zero_provider_calls_witness :
    Ddns.update_all_records cfgAB ⟨none⟩ (.transportError "echo down")
        (fun _ => .parsed (okListEnv [recA])) (fun _ => .parsed okPatchEnv)
      = (.error (.networkError "echo down"), ⟨none⟩, []) :=
  resolve_failure_zero_provider_calls cfgAB ⟨none⟩ (.transportError "echo down")
    (fun _ => .parsed (okListEnv [recA])) (fun _ => .parsed okPatchEnv)
    (.networkError "echo down") rfl

/-! ## C7 -/

/-- C7: once the fetched record's content differs from the resolved IP —
so the PATCH is actually issued — `update_record` succeeds if and only if
the update exchange yields a parsed envelope with `success = true`. In
particular, an envelope that parses fine over a successful HTTP exchange
but carries `success: false` makes the domain outcome failed. -/
theorem update_outcome_iff_envelope_success (cfg : Ddns.Config)
    (zone_id : String) (ip : Ipv4) (d : Ddns.Domain)
    (getResp : HttpOutcome (Ddns.ApiResponse (List Ddns.ApiDnsRecord)))
    (patchResp : HttpOutcome (Ddns.ApiResponse Ddns.ApiDnsRecord))
    (rc : Ddns.ApiDnsRecord)
    (h1 : Ddns.get_record_content getResp d = .ok rc)
    (h2 : rc.content ≠ ipToString ip) :
    (Ddns.update_record cfg zone_id ip d getResp patchResp).1 = .ok ()
      ↔ ∃ ur, patchResp = .parsed ur ∧ ur.success = true := by
  have hb : (rc.content == ipToString ip) = false := by
    simp [h2]
  simp only [Ddns.update_record, h1, hb, Bool.false_eq_true, if_false]
  cases patchResp with
  | transportError e => simp
  | badBody b => simp
  | parsed ur =>
    by_cases hs : ur.success <;> simp [hs]

/-- C7 witness: a record differing from the resolved IP and an update
envelope with `success: false` over a successful HTTP exchange. -/
theorem update_outcome_iff_envelope_success_witness :
    ((Ddns.update_record cfgA "z1" ⟨5, 6, 7, 8⟩ domA
        (.parsed (okListEnv [recA])) (.parsed failPatchEnv)).1 = .ok ()
      ↔ ∃ ur, (HttpOutcome.parsed failPatchEnv
          : HttpOutcome (Ddns.ApiResponse Ddns.ApiDnsRecord)) = .parsed ur
        ∧ ur.success = true) :=
  update_outcome_iff_envelope_success cfgA "z1" ⟨5, 6, 7, 8⟩ domA
    (.parsed (okListEnv [recA])) (.parsed failPatchEnv) recA rfl (by decide)

/-! ## C8 -/

/-- The run trace holds two events per completed iteration. -/
theorem runTrace_length (cfg : Ddns.Config) (o : Nat → Except DdnsError Unit) :
    ∀ n, (runTrace cfg o n).length = 2 * n
  | 0 => rfl
  | n + 1 => by
    simp only [runTrace, runIteration, List.length_append, List.length_cons,
      List.length_nil, runTrace_length cfg o n]
    omega

/-- C8: the scheduler's trace starts with a cycle at position 0 (one
reconciliation runs immediately, with no initial delay), and for every
iteration `k` — whatever the cycle's outcome `o k`, success or failure —
the event at position `2k` is that cycle and the event right after it is
a single wait of `update_interval * 60` seconds (minutes converted to a
duration, measured from the end of the cycle) before the next cycle. -/
theorem run_immediate_then_fixed_interval (cfg : Ddns.Config)
    (o : Nat → Except DdnsError Unit) (n k : Nat) (h : k < n) :
    (runTrace cfg o n)[2 * k]? = some (SchedEvent.cycle (o k))
      ∧ (runTrace cfg o n)[2 * k + 1]?
        = some (SchedEvent.wait (cfg.update_interval * 60)) := by
  induction n with
  | zero => exact absurd h (Nat.not_lt_zero k)
  | succ n ih =>
    have hl : (runTrace cfg o n).length = 2 * n := runTrace_length cfg o n
    rcases Nat.lt_succ_iff_lt_or_eq.mp h with h1 | rfl
    · obtain ⟨c1, c2⟩ := ih h1
      constructor
      · rw [show runTrace cfg o (n + 1) = runTrace cfg o n ++ runIteration cfg o n
            from rfl,
          List.getElem?_append_left (by rw [hl]; omega)]
        exact c1
      · rw [show runTrace cfg o (n + 1) = runTrace cfg o n ++ runIteration cfg o n
            from rfl,
          List.getElem?_append_left (by rw [hl]; omega)]
        exact c2
    · constructor
      · rw [show runTrace cfg o (k + 1) = runTrace cfg o k ++ runIteration cfg o k
            from rfl,
          List.getElem?_append_right (by rw [hl]),
          hl]
        simp [runIteration]
      · rw [show runTrace cfg o (k + 1) = runTrace cfg o k ++ runIteration cfg o k
            from rfl,
          List.getElem?_append_right (by rw [hl]; omega),
          hl]
        simp [runIteration]

/-- C8 witness: a run of two iterations where the second cycle fails; the
failed cycle still sits at position 2 and is still followed by the
five-minute (300 second) wait. -/
theorem run_immediate_then_fixed_interval_witness :
    (runTrace cfgAB (fun k => if k = 0 then .ok () else .error (.networkError "x"))
        2)[2 * 1]? = some (SchedEvent.cycle (.error (.networkError "x")))
      ∧ (runTrace cfgAB (fun k => if k = 0 then .ok () else .error (.networkError "x"))
          2)[2 * 1 + 1]? = some (SchedEvent.wait (cfgAB.update_interval * 60)) :=
  run_immediate_then_fixed_interval cfgAB
    (fun k => if k = 0 then .ok () else .error (.networkError "x")) 2 1
    (by omega)

/-! ## C9 -/

/-- C9: the per-cycle decision logic never reads the stored last-known IP.
For any two values of the `current_ip` field, a cycle run against the same
resolved-IP response and the same provider responses returns the same
outcome and issues exactly the same provider calls: each cycle re-fetches
the provider-side records before deciding. -/
theorem cycle_decisions_independent_of_stored_ip (cfg : Ddns.Config)
    (st1 st2 : Ddns.DdnsState) (ipResp : HttpOutcome Ddns.TraceResponse)
    (getResp : Ddns.Domain → HttpOutcome (Ddns.ApiResponse (List Ddns.ApiDnsRecord)))
    (patchResp : Ddns.Domain → HttpOutcome (Ddns.ApiResponse Ddns.ApiDnsRecord)) :
    (Ddns.update_all_records cfg st1 ipResp getResp patchResp).1
        = (Ddns.update_all_records cfg st2 ipResp getResp patchResp).1
      ∧ (Ddns.update_all_records cfg st1 ipResp getResp patchResp).2.2
        = (Ddns.update_all_records cfg st2 ipResp getResp patchResp).2.2 := by
  unfold Ddns.update_all_records
  cases Ddns.get_current_ip ipResp <;> exact ⟨rfl, rfl⟩

/-! ## C10 -/

/-- C10: the skip-versus-update decision is exact character equality: a
write is issued precisely when the fetched record's content string is not
character-identical to the canonical dotted-decimal rendering of the
resolved IPv4 address — so content with leading zeros or any other
non-canonical spelling of the same address still triggers an update. -/
theorem skip_decision_exact_string_equality (cfg : Ddns.Config)
    (zone_id : String) (ip : Ipv4) (d : Ddns.Domain)
    (getResp : HttpOutcome (Ddns.ApiResponse (List Ddns.ApiDnsRecord)))
    (patchResp : HttpOutcome (Ddns.ApiResponse Ddns.ApiDnsRecord))
    (rc : Ddns.ApiDnsRecord)
    (h : Ddns.get_record_content getResp d = .ok rc) :
    ((Ddns.update_record cfg zone_id ip d getResp patchResp).2.any
        ProviderCall.isWrite)
      = !(rc.content == ipToString ip) := by
  simp only [Ddns.update_record, h]
  cases hc : rc.content == ipToString ip with
  | true => simp [ProviderCall.isWrite]
  | false =>
    simp only [Bool.false_eq_true, if_false]
    cases patchResp with
    | transportError e => simp [ProviderCall.isWrite]
    | badBody b => simp [ProviderCall.isWrite]
    | parsed ur => by_cases hs : ur.success <;> simp [hs, ProviderCall.isWrite]

/-- C10 witness: record content `001.002.003.004` denotes 1.2.3.4 with
leading zeros but is not character-identical to the canonical rendering,
so the engine issues a write. -/
theorem skip_decision_exact_string_equality_witness :
    ((Ddns.update_record cfgA "z1" ⟨1, 2, 3, 4⟩ domA
        (.parsed (okListEnv [recZeros])) (.parsed okPatchEnv)).2.any
          ProviderCall.isWrite)
      = !(recZeros.content == ipToString ⟨1, 2, 3, 4⟩)
      ∧ (!(recZeros.content == ipToString ⟨1, 2, 3, 4⟩)) = true :=
  ⟨skip_decision_exact_string_equality cfgA "z1" ⟨1, 2, 3, 4⟩ domA
      (.parsed (okListEnv [recZeros])) (.parsed okPatchEnv) recZeros rfl,
   by decide⟩
